import Mathlib

/-!
Shallow embedding of the AVAI queue-supervision and Redis/WebSocket bridge
subsystem: the trigger consumption functions (`check_redis_trigger.py`,
`automated_queue_processor.py`), the monitor loops of the two queue
processors, the worker spawn guards, the canister result bridge
(`redis_canister_bridge.py`) and the response bridge
(`optimized_response_bridge.py`).

Python dictionaries read from Redis are modelled by inductive data that
records exactly the distinctions the code inspects (parse success, the
`action` string, timestamp freshness); Redis side effects are modelled by
explicit state values returned alongside each function's result.
-/

namespace AVAI

/-! ## Automation triggers

The value stored at the Redis key `avai:automation:trigger`, as seen by the
consumers: either a string that fails `json.loads`, or a parsed object with
an `action` field (absent field modelled as the empty string, matching
`trigger.get('action', '')`) and a timestamp field whose only inspected
properties are presence, parseability and 5-minute staleness. -/

/-- Outcome of inspecting the `timestamp` field of a trigger object in
`check_redis_trigger`: absent/empty/falsy (no staleness check), a string
that parses and is recent, a string that parses and is older than 5
minutes, a string on which `datetime.fromisoformat` raises `ValueError`,
or a truthy non-string value (e.g. the number 123), on which
`timestamp.replace` raises `AttributeError`. -/
inductive TsInfo where
  | absent
  | fresh
  | stale
  | invalid
  | nonString
deriving DecidableEq, Repr

/-- A value stored at `avai:automation:trigger`: a string `json.loads`
rejects, JSON that parses to a non-dict (`null`, a number, a string, a
list — `.get` raises `AttributeError`), a dict whose `action` value is not
a string (`.upper()` raises `AttributeError` in `check_redis_trigger`), or
a dict carrying an `action` string and a timestamp field. -/
inductive TriggerVal where
  | malformed
  | nonDict
  | badAction
  | parsed (action : String) (ts : TsInfo)
deriving DecidableEq, Repr

/-- Python `str.upper()` restricted to the ASCII actions the code compares. -/
def pyUpper (s : String) : String := ⟨s.data.map Char.toUpper⟩

/-- The recognized trigger actions (`check_redis_trigger.py` line 63). -/
def knownActions : List String := ["START_WORKER", "STOP_WORKER", "RESTART_WORKER"]

/-- A trigger the system does not recognize: malformed JSON, non-dict
JSON, a non-string action value, or a string action whose uppercasing is
outside `knownActions`. -/
def TriggerVal.isUnknown : TriggerVal → Bool
  | .malformed => true
  | .nonDict => true
  | .badAction => true
  | .parsed a _ => !(knownActions.contains (pyUpper a))

/-- Triggers whose inspection in `check_redis_trigger` raises an exception
that the inner `except (json.JSONDecodeError, ValueError)` does not catch:
the `AttributeError` escapes to the outer `except Exception`
(`check_redis_trigger.py` lines 78-80), which returns `None` without
deleting the key. -/
def TriggerVal.raisesUncaught : TriggerVal → Bool
  | .nonDict => true
  | .badAction => true
  | .parsed _ .nonString => true
  | _ => false

/-- Result of `check_redis_trigger` (`check_redis_trigger.py`): the returned
action (or `none`), the trigger key's value afterwards, and whether an entry
was pushed onto `avai:automation:log`. -/
structure CRTResult where
  returned : Option String
  trigger : Option TriggerVal
  logged : Bool
deriving DecidableEq, Repr

/-- `check_redis_trigger` from `check_redis_trigger.py` (lines 14-80), as a
function of the current value of `avai:automation:trigger`.
Malformed JSON and unparseable-string timestamps hit the inner
`except (json.JSONDecodeError, ValueError)` branch, which deletes the key
and returns `None`; non-dict JSON, a non-string action and a truthy
non-string timestamp raise `AttributeError`, which only the outer
`except Exception` catches — returning `None` with the key left in place;
stale triggers are deleted and ignored; otherwise the key is deleted, the
trigger logged, and the uppercased action returned when recognized. -/
def check_redis_trigger : Option TriggerVal → CRTResult
  | none => ⟨none, none, false⟩
  | some .malformed => ⟨none, none, false⟩
  | some .nonDict => ⟨none, some .nonDict, false⟩
  | some .badAction => ⟨none, some .badAction, false⟩
  | some (.parsed a ts) =>
    match ts with
    | .nonString => ⟨none, some (.parsed a .nonString), false⟩
    | .invalid => ⟨none, none, false⟩
    | .stale => ⟨none, none, false⟩
    | .absent | .fresh =>
      let action := pyUpper a
      if knownActions.contains action then ⟨some action, none, true⟩
      else ⟨none, none, true⟩

/-- Result of `AutomatedQueueProcessor.check_automation_trigger`
(`automated_queue_processor.py`): the boolean returned and the trigger key's
value afterwards. -/
structure CATResult where
  returned : Bool
  trigger : Option TriggerVal
deriving DecidableEq, Repr

/-- `check_automation_trigger` from `automated_queue_processor.py`
(lines 89-107). Only actions exactly equal to `START_WORKER` or
`RESTART_WORKER` are acted on: then the key is deleted and `True` returned.
A malformed value raises inside `json.loads` and non-dict JSON raises at
`.get`; both land in the `except Exception` branch, which returns `False`
without touching the key. A non-string action value is simply not in the
two-element list (there is no `.upper()` call here), and any other action
falls through to `return False` — in both cases the key stays in place.
The timestamp field is never read. -/
def check_automation_trigger : Option TriggerVal → CATResult
  | none => ⟨false, none⟩
  | some .malformed => ⟨false, some .malformed⟩
  | some .nonDict => ⟨false, some .nonDict⟩
  | some .badAction => ⟨false, some .badAction⟩
  | some (.parsed a ts) =>
    if a = "START_WORKER" ∨ a = "RESTART_WORKER" then ⟨true, none⟩
    else ⟨false, some (.parsed a ts)⟩

/-- Claim C1 as stated is false: `check_automation_trigger` on an
unrecognized trigger returns false but does NOT delete the trigger key. -/
theorem C1_counterexample :
    ¬ ((check_automation_trigger (some (.parsed "UNKNOWN_ACTION" .absent))).trigger
        = none) := by
  decide

/-- Claim C1 (amended): for a trigger the system does not recognize
(malformed JSON, non-dict JSON, a non-string action, or a string action
outside the known set), `check_redis_trigger` returns none, and
`check_automation_trigger` returns false and leaves the key in place
unchanged. `check_redis_trigger` deletes the key exactly when inspecting
the trigger raised no uncaught exception: a trigger whose inspection
raises an `AttributeError` (non-dict JSON, non-string action, truthy
non-string timestamp) is swallowed by the outer `except Exception` with the
key left in place. -/
theorem C1_unknown_trigger (tv : TriggerVal) (h : tv.isUnknown = true) :
    (check_redis_trigger (some tv)).returned = none ∧
    (check_redis_trigger (some tv)).trigger
      = (if tv.raisesUncaught then some tv else none) ∧
    (check_automation_trigger (some tv)).returned = false ∧
    (check_automation_trigger (some tv)).trigger = some tv := by
  cases tv with
  | malformed => exact ⟨rfl, rfl, rfl, rfl⟩
  | nonDict => exact ⟨rfl, rfl, rfl, rfl⟩
  | badAction => exact ⟨rfl, rfl, rfl, rfl⟩
  | parsed a ts =>
    have hc : knownActions.contains (pyUpper a) = false := by
      simpa [TriggerVal.isUnknown] using h
    have hne : ¬ (a = "START_WORKER" ∨ a = "RESTART_WORKER") := by
      rintro (rfl | rfl) <;> exact absurd hc (by decide)
    have hmem : pyUpper a ∉ knownActions := by simpa using hc
    cases ts <;>
      simp [check_redis_trigger, check_automation_trigger,
        TriggerVal.raisesUncaught, hc, hne, hmem]

/-- Witness for C1 at the concrete unrecognized action `SHUTDOWN` (a
well-typed trigger, so the key does get deleted by `check_redis_trigger`
and kept by `check_automation_trigger`). -/
theorem C1_witness :
    TriggerVal.isUnknown (.parsed "SHUTDOWN" .absent) = true ∧
    (check_redis_trigger (some (.parsed "SHUTDOWN" .absent))).returned = none ∧
    (check_redis_trigger (some (.parsed "SHUTDOWN" .absent))).trigger
      = (if TriggerVal.raisesUncaught (.parsed "SHUTDOWN" .absent) then
           some (.parsed "SHUTDOWN" .absent) else none) ∧
    (check_automation_trigger (some (.parsed "SHUTDOWN" .absent))).returned = false ∧
    (check_automation_trigger (some (.parsed "SHUTDOWN" .absent))).trigger
      = some (.parsed "SHUTDOWN" .absent) :=
  ⟨by decide, C1_unknown_trigger (.parsed "SHUTDOWN" .absent) (by decide)⟩

/-! ## Worker timeout handling

The `except asyncio.TimeoutError` branches of `run_main_enhanced` in the two
processors, modelled as the sequence of effects they perform on the worker
subprocess. The only environmental input is whether the process exits
within the 10-second grace period after `terminate()`. -/

/-- Trace of the supervisor's actions on the worker subprocess after the
processing timeout fires: the signals sent, whether a `wait()` on the
process completed afterwards (which is what reaps the child and confirms
termination), and the WorkerStatus update performed. -/
structure TimeoutHandling where
  terminateSent : Bool
  graceSecs : Nat
  killSent : Bool
  waitedAfterKill : Bool
  reaped : Bool
  status : String
  statusHasTerminatedAt : Bool
deriving DecidableEq, Repr

/-- The timeout branch of `run_main_enhanced` in
`automated_queue_processor.py` (lines 199-216): `terminate()`, then
`wait_for(process.wait, timeout=10)`; if that also times out, `kill()` with
no further wait, so an unresponsive process is never reaped. Either way the
status is set to `timeout` with a `terminated_at` timestamp. -/
def handle_timeout_enhanced (respondsWithinGrace : Bool) : TimeoutHandling :=
  if respondsWithinGrace then
    { terminateSent := true, graceSecs := 10, killSent := false,
      waitedAfterKill := false, reaped := true,
      status := "timeout", statusHasTerminatedAt := true }
  else
    { terminateSent := true, graceSecs := 10, killSent := true,
      waitedAfterKill := false, reaped := false,
      status := "timeout", statusHasTerminatedAt := true }

/-- The timeout branch of `run_main_enhanced` in
`automated_queue_processor_safe.py` (lines 163-170): `process.kill()`
followed by `await process.wait()` (no graceful phase), then a `timeout`
status carrying `timeout_at`, not `terminated_at`. -/
def handle_timeout_safe : TimeoutHandling :=
  { terminateSent := false, graceSecs := 0, killSent := true,
    waitedAfterKill := true, reaped := true,
    status := "timeout", statusHasTerminatedAt := false }

/-- Claim C2 as stated is false: when the worker ignores the graceful
terminate, `run_main_enhanced` kills it but never waits on it again, so the
process is not confirmed terminated (it can linger as a zombie). -/
theorem C2_counterexample :
    ¬ ((handle_timeout_enhanced false).reaped = true) := by
  decide

/-- Claim C2 (amended): on timeout `run_main_enhanced` sends terminate,
allows a 10s grace period, kills exactly when the process did not exit in
time, and sets WorkerStatus to `timeout` with `terminated_at`; termination
is confirmed (the process reaped) only when the process responded to the
graceful terminate. The safe variant kills immediately without a graceful
phase, does confirm termination, and records `timeout` without
`terminated_at`. -/
theorem C2_timeout_handling (r : Bool) :
    (handle_timeout_enhanced r).terminateSent = true ∧
    (handle_timeout_enhanced r).graceSecs = 10 ∧
    (handle_timeout_enhanced r).killSent = !r ∧
    (handle_timeout_enhanced r).reaped = r ∧
    (handle_timeout_enhanced r).status = "timeout" ∧
    (handle_timeout_enhanced r).statusHasTerminatedAt = true ∧
    handle_timeout_safe.terminateSent = false ∧
    handle_timeout_safe.killSent = true ∧
    handle_timeout_safe.reaped = true ∧
    handle_timeout_safe.status = "timeout" ∧
    handle_timeout_safe.statusHasTerminatedAt = false := by
  cases r <;> exact ⟨rfl, rfl, rfl, rfl, rfl, rfl, rfl, rfl, rfl, rfl, rfl⟩

/-! ## Queue status and the monitor loops -/

/-- The dictionary returned by `check_queue_status`
(`automated_queue_processor.py` lines 71-87). -/
structure QStatus where
  queue_length : Nat
  processing_count : Nat
  total_pending : Nat
  has_work : Bool
deriving DecidableEq, Repr

/-- `check_queue_status` as a function of the sorted-set cardinality of
`avai:prompt_queue` and the number of `avai:processing_prompts:*` keys:
`total_pending` adds both, `has_work` looks only at the queue length. -/
def check_queue_status (queueLength processingCount : Nat) : QStatus :=
  { queue_length := queueLength
    processing_count := processingCount
    total_pending := queueLength + processingCount
    has_work := decide (queueLength > 0) }

/-- `backoff_time = 10` in `monitor_and_process`
(`automated_queue_processor.py` line 234). -/
def backoff_time : Nat := 10

/-- `max_failures = 5` in both monitor loops. -/
def max_failures : Nat := 5

/-- Observable outcome of one iteration of a monitor loop: the consecutive
failure count afterwards, the sleeps performed (seconds, in order), whether
the iteration ended in `continue` (skipping the interval sleep), and
whether it ended in `break` (stopping the loop). -/
structure IterOut where
  failures : Nat
  sleeps : List Nat
  continuedEarly : Bool
  stopped : Bool
deriving DecidableEq, Repr

/-- `should_process` as computed in `monitor_and_process`
(`automated_queue_processor.py` lines 244-253): a received trigger or
`status['has_work']`. -/
def should_process (triggerReceived : Bool) (st : QStatus) : Bool :=
  triggerReceived || st.has_work

/-- The re-check guard `new_status and new_status['has_work']` (line 262). -/
def has_work_opt : Option QStatus → Bool
  | some st => st.has_work
  | none => false

/-- One iteration of `monitor_and_process` in
`automated_queue_processor.py` (lines 236-272), parameterized by the poll
interval, the failure count entering the iteration, whether a trigger was
consumed, the `check_queue_status` result (`none` models its error path),
whether `run_main_enhanced` would succeed, and the re-check result after a
success. On success with remaining work the loop `continue`s without any
sleep; on the fifth-or-later consecutive failure it sleeps
`backoff_time * failures` before the interval sleep; it never breaks. -/
def monitor_iter_enhanced (checkInterval failures : Nat) (triggerReceived : Bool)
    (status : Option QStatus) (runSuccess : Bool) (recheck : Option QStatus) :
    IterOut :=
  match status with
  | none => ⟨failures, [checkInterval], false, false⟩
  | some st =>
    if should_process triggerReceived st then
      if runSuccess then
        if has_work_opt recheck then ⟨0, [], true, false⟩
        else ⟨0, [checkInterval], false, false⟩
      else
        let f := failures + 1
        if max_failures ≤ f then ⟨f, [backoff_time * f, checkInterval], false, false⟩
        else ⟨f, [checkInterval], false, false⟩
    else ⟨failures, [checkInterval], false, false⟩

/-- One iteration of `monitor_and_process` in
`automated_queue_processor_safe.py` (lines 188-224). On the
fifth-or-later consecutive failure it executes `break`, stopping the
monitor loop; an idle iteration resets the failure count. -/
def monitor_iter_safe (checkInterval failures : Nat) (triggerReceived : Bool)
    (queueSize : Nat) (runSuccess : Bool) : IterOut :=
  if triggerReceived || decide (queueSize > 0) then
    if runSuccess then ⟨0, [checkInterval], false, false⟩
    else
      let f := failures + 1
      if max_failures ≤ f then ⟨f, [], false, true⟩
      else ⟨f, [checkInterval], false, false⟩
  else ⟨0, [checkInterval], false, false⟩

/-- Claim C3 as stated is false: in the safe processor, a worker failure
that brings the consecutive-failure count to 5 breaks the monitor loop —
the supervisor stops instead of backing off and looping. -/
theorem C3_counterexample :
    ¬ ((monitor_iter_safe 10 4 false 3 false).stopped = false) := by
  decide

/-- Claim C3 (amended): in `automated_queue_processor.py` the monitor loop
never breaks, and once consecutive failures reach the cap of 5 it sleeps an
extended backoff of `backoff_time * failures` seconds in addition to the
poll interval, so a worker failure is never fatal there; in
`automated_queue_processor_safe.py`, reaching 5 consecutive failures breaks
the monitor loop. -/
theorem C3_backoff :
    (∀ ci f trigger status runSuccess recheck,
      (monitor_iter_enhanced ci f trigger status runSuccess recheck).stopped
        = false) ∧
    (∀ ci f trigger st recheck, should_process trigger st = true →
      max_failures ≤ f + 1 →
      (monitor_iter_enhanced ci f trigger (some st) false recheck).sleeps
          = [backoff_time * (f + 1), ci] ∧
      (monitor_iter_enhanced ci f trigger (some st) false recheck).failures
          = f + 1) ∧
    (∀ ci f trigger q, (trigger || decide (q > 0)) = true →
      max_failures ≤ f + 1 →
      (monitor_iter_safe ci f trigger q false).stopped = true) := by
  refine ⟨?_, ?_, ?_⟩
  · intro ci f trigger status runSuccess recheck
    match status with
    | none => rfl
    | some st =>
      simp only [monitor_iter_enhanced]
      split
      · split
        · split <;> rfl
        · split <;> rfl
      · rfl
  · intro ci f trigger st recheck hsp hf
    simp [monitor_iter_enhanced, hsp, hf]
  · intro ci f trigger q hsp hf
    simp [monitor_iter_safe, hsp, hf]

/-- Witness for C3 at concrete inputs: four prior failures and a failing
run give the enhanced loop a 50-second extended backoff before its
interval sleep, while the safe loop stops. -/
theorem C3_witness :
    (monitor_iter_enhanced 10 4 true (some (check_queue_status 1 0)) false
        none).sleeps = [50, 10] ∧
    (monitor_iter_safe 10 4 true 1 false).stopped = true :=
  ⟨(C3_backoff.2.1 10 4 true (check_queue_status 1 0) none (by decide)
      (by decide)).1,
   C3_backoff.2.2 10 4 true 1 (by decide) (by decide)⟩

/-- Whether the iteration invoked the worker: `status` truthy and
`should_process`. -/
def processed_this_iter (triggerReceived : Bool) : Option QStatus → Bool
  | some st => should_process triggerReceived st
  | none => false

/-- Claim C5 (confirmed): an iteration of the enhanced monitor loop skips
all sleeping and continues immediately exactly when the worker ran
successfully and the re-check reports remaining work; every other
iteration performs the fixed poll-interval sleep. -/
theorem C5_continue_without_sleep (ci f : Nat) (trigger : Bool)
    (status : Option QStatus) (runSuccess : Bool) (recheck : Option QStatus) :
    if processed_this_iter trigger status && runSuccess && has_work_opt recheck
    then (monitor_iter_enhanced ci f trigger status runSuccess recheck).sleeps = []
      ∧ (monitor_iter_enhanced ci f trigger status runSuccess recheck).continuedEarly
          = true
    else ci ∈ (monitor_iter_enhanced ci f trigger status runSuccess recheck).sleeps
      ∧ (monitor_iter_enhanced ci f trigger status runSuccess recheck).continuedEarly
          = false := by
  match status with
  | none => simp [processed_this_iter, monitor_iter_enhanced]
  | some st =>
    simp only [processed_this_iter]
    by_cases hsp : should_process trigger st = true
    case neg =>
      rw [Bool.not_eq_true] at hsp
      simp [monitor_iter_enhanced, hsp]
    case pos =>
      cases runSuccess with
      | false =>
        by_cases hf : max_failures ≤ f + 1 <;>
          simp [monitor_iter_enhanced, hsp, hf]
      | true =>
        by_cases hrw : has_work_opt recheck = true
        case neg =>
          rw [Bool.not_eq_true] at hrw
          simp [monitor_iter_enhanced, hsp, hrw]
        case pos =>
          simp [monitor_iter_enhanced, hsp, hrw]

/-- Claim C9 (confirmed): `has_work` is the predicate `queue length > 0`
alone, the in-flight marker keys are counted into `total_pending`, and the
enhanced monitor iteration without a trigger is entirely independent of the
number of in-flight marker keys. -/
theorem C9_spawn_depends_only_on_queue (q p p' ci f : Nat) (rs : Bool)
    (rc : Option QStatus) :
    (check_queue_status q p).has_work = decide (q > 0) ∧
    (check_queue_status q p).total_pending = q + p ∧
    should_process false (check_queue_status q p) = decide (q > 0) ∧
    monitor_iter_enhanced ci f false (some (check_queue_status q p)) rs rc
      = monitor_iter_enhanced ci f false (some (check_queue_status q p')) rs rc := by
  refine ⟨rfl, rfl, by simp [should_process, check_queue_status], rfl⟩

/-! ## Spawn guards -/

/-- The supervisor's view of its tracked worker subprocess reference:
no reference, a live process (`poll()` returns `None`), or a terminated
process with an exit code. -/
inductive ProcRef where
  | noProc
  | live
  | terminated (code : Int)
deriving DecidableEq, Repr

/-- `is_worker_running` from `simple_host_automation.py` (lines 66-80):
returns whether the tracked process is alive, clearing the stale reference
(and its pid file) when it has terminated. -/
def is_worker_running : ProcRef → Bool × ProcRef
  | .noProc => (false, .noProc)
  | .live => (true, .live)
  | .terminated _ => (false, .noProc)

/-- Outcome of `start_worker`: its boolean return, whether a new process
was launched, and the tracked process reference afterwards. -/
structure StartWorkerResult where
  returned : Bool
  launched : Bool
  proc : ProcRef
deriving DecidableEq, Repr

/-- `start_worker` from `simple_host_automation.py` (lines 82-111).
When the worker is already running it logs and returns True immediately;
otherwise it launches the subprocess (`spawnOk` models `Popen` succeeding;
on an exception the `except` branch returns False). -/
def start_worker (p : ProcRef) (spawnOk : Bool) : StartWorkerResult :=
  let r := is_worker_running p
  if r.1 then ⟨true, false, r.2⟩
  else if spawnOk then ⟨true, true, .live⟩
  else ⟨false, false, r.2⟩

/-- Outcome of the guard phase of `run_main_enhanced` in
`automated_queue_processor.py`: whether the launch proceeds, the early
return value when it does not, and the WorkerStatus values written so far. -/
structure GuardResult where
  launched : Bool
  earlyReturn : Option Bool
  statusWrites : List String
deriving DecidableEq, Repr

/-- `min_process_interval = 5` (`automated_queue_processor.py` line 46). -/
def min_process_interval : Nat := 5

/-- The guard phase of `run_main_enhanced` in `automated_queue_processor.py`
(lines 128-142): the rate-limit check against `last_process_time`, then the
liveness check on `current_process` — both return False before any
WorkerStatus write; only when both pass is `starting` written and the
subprocess launched. -/
def run_main_enhanced_guard (now lastProcessTime : Nat) (procLive : Bool) :
    GuardResult :=
  if now - lastProcessTime < min_process_interval then ⟨false, some false, []⟩
  else if procLive then ⟨false, some false, []⟩
  else ⟨true, none, ["starting"]⟩

/-- Claim C4 as stated is false: `start_worker` invoked while the worker is
live returns True (it reports the already-running worker as success), not
false. -/
theorem C4_counterexample :
    ¬ ((start_worker .live true).returned = false) := by
  decide

/-- Claim C4 (amended): `run_main_enhanced` invoked while the tracked
worker process is live returns false, launches nothing, and writes no
WorkerStatus update; `start_worker` in `simple_host_automation.py` invoked
while the worker is live returns true, and it too launches nothing and
leaves the tracked process unchanged. -/
theorem C4_no_double_spawn (now last : Nat) (spawnOk : Bool) :
    (run_main_enhanced_guard now last true).launched = false ∧
    (run_main_enhanced_guard now last true).earlyReturn = some false ∧
    (run_main_enhanced_guard now last true).statusWrites = [] ∧
    (start_worker .live spawnOk).returned = true ∧
    (start_worker .live spawnOk).launched = false ∧
    (start_worker .live spawnOk).proc = .live := by
  have hg : run_main_enhanced_guard now last true = ⟨false, some false, []⟩ := by
    unfold run_main_enhanced_guard
    by_cases h : now - last < min_process_interval <;> simp [h]
  rw [hg]
  exact ⟨rfl, rfl, rfl, rfl, rfl, rfl⟩

/-! ## Redis-canister bridge -/

/-- A canister operation request as the bridge reads it from a deploy or
query queue: `request.get('request_id')` (absent field modelled as `none`)
plus an opaque remainder. -/
structure CanisterRequest where
  request_id : Option String
  payload : String
deriving DecidableEq, Repr

/-- A message on the `avai:canister:results` list, as built by
`_send_result_to_redis` (`redis_canister_bridge.py` lines 136-141). -/
structure ResultMessage where
  request_id : String
  result : String
  timestamp : String
  source : String
deriving DecidableEq, Repr

/-- Python truthiness of an optional string: `None` and the empty string
are falsy. -/
def truthyOptStr : Option String → Bool
  | none => false
  | some s => !(s == "")

/-- `_send_result_to_redis` (`redis_canister_bridge.py` lines 130-152) as a
transformation of the `avai:canister:results` list: the guard
`if not self.redis_client or not request_id: return` drops the result when
the client is absent or the id is falsy; otherwise the result message is
`lpush`ed (prepended). -/
def send_result_to_redis (hasRedis : Bool) (request_id : Option String)
    (result now : String) (results : List ResultMessage) : List ResultMessage :=
  match hasRedis, request_id with
  | false, _ => results
  | true, none => results
  | true, some rid =>
    if rid = "" then results
    else ⟨rid, result, now, "canister_bridge"⟩ :: results

/-- `_handle_deploy_request` (`redis_canister_bridge.py` lines 102-114):
when a canister manager is configured, run the deployment (modelled as the
function `deploy`) and hand the result to `_send_result_to_redis` under the
request's own `request_id`. -/
def handle_deploy_request (hasRedis hasManager : Bool)
    (deploy : CanisterRequest → String) (req : CanisterRequest) (now : String)
    (results : List ResultMessage) : List ResultMessage :=
  if hasManager then
    send_result_to_redis hasRedis req.request_id (deploy req) now results
  else results

/-- Claim C6 (confirmed): a deploy request carrying a non-empty
`request_id` X produces on `avai:canister:results` exactly one new message,
tagged with the same `request_id` X. -/
theorem C6_request_id_roundtrip (deploy : CanisterRequest → String)
    (req : CanisterRequest) (now : String) (results : List ResultMessage)
    (x : String) (hid : req.request_id = some x) (hx : x ≠ "") :
    handle_deploy_request true true deploy req now results
      = { request_id := x, result := deploy req, timestamp := now,
          source := "canister_bridge" } :: results := by
  unfold handle_deploy_request send_result_to_redis
  rw [hid]
  simp [hx]

/-- Witness for C6 at a concrete request with id `req-7`. -/
theorem C6_witness :
    handle_deploy_request true true (fun _ => "deployed") ⟨some "req-7", "wasm"⟩
        "ts0" []
      = [{ request_id := "req-7", result := "deployed", timestamp := "ts0",
           source := "canister_bridge" }] :=
  C6_request_id_roundtrip (fun _ => "deployed") ⟨some "req-7", "wasm"⟩ "ts0" []
    "req-7" rfl (by decide)

/-- Claim C10 (confirmed): a result whose originating request id is
missing, `None`, or empty is silently discarded — `_send_result_to_redis`
pushes nothing, leaving `avai:canister:results` unchanged. -/
theorem C10_falsy_id_discarded (hasRedis : Bool) (rid : Option String)
    (result now : String) (results : List ResultMessage)
    (h : truthyOptStr rid = false) :
    send_result_to_redis hasRedis rid result now results = results := by
  cases rid with
  | none => cases hasRedis <;> rfl
  | some s =>
    have hs : s = "" := by
      have hb : (s == "") = true := by
        simpa [truthyOptStr] using h
      exact eq_of_beq hb
    subst hs
    cases hasRedis <;> simp [send_result_to_redis]

/-- Witness for C10 at the concrete empty request id. -/
theorem C10_witness :
    truthyOptStr (some "") = false ∧
    send_result_to_redis true (some "") "res" "ts1" [] = [] :=
  ⟨by decide, C10_falsy_id_discarded true (some "") "res" "ts1" [] (by decide)⟩

/-! ## Response bridge -/

/-- A parsed entry of `avai:queue:responses` as `forward_response` reads
it: the optional `payload`, `timestamp` and `client_id` fields, plus the
whole object (`raw`), which stands in for the payload when the `payload`
field is absent. -/
structure ResponseData where
  payload : Option String
  timestamp : Option String
  client_id : Option String
  raw : String
deriving DecidableEq, Repr

/-- Observable outcome of one iteration of `consume_responses`
(`optimized_response_bridge.py` lines 64-88): what was forwarded (if
anything), whether the invalid-JSON warning was logged, and whether the
loop keeps running. -/
structure ConsumeIter where
  forwarded : Option ResponseData
  warnedInvalidJson : Bool
  continues : Bool
deriving DecidableEq, Repr

/-- One iteration of the consume loop: `brpop` yields nothing (timeout) or
a raw string; `json.loads` is modelled by the `parseJson` parameter. A
parse failure hits the `except json.JSONDecodeError` branch: log a warning,
forward nothing, keep looping. -/
def consume_iteration (parseJson : String → Option ResponseData)
    (popped : Option String) : ConsumeIter :=
  match popped with
  | none => ⟨none, false, true⟩
  | some s =>
    match parseJson s with
    | none => ⟨none, true, true⟩
    | some rd => ⟨some rd, false, true⟩

/-- Claim C7 (confirmed): popping a malformed (non-JSON) string logs the
warning, forwards nothing, and the loop continues. -/
theorem C7_malformed_dropped (parseJson : String → Option ResponseData)
    (s : String) (h : parseJson s = none) :
    consume_iteration parseJson (some s) = ⟨none, true, true⟩ := by
  simp [consume_iteration, h]

/-- Witness for C7 on a concrete non-JSON string. -/
theorem C7_witness :
    consume_iteration (fun _ => none) (some "plainly not json") = ⟨none, true, true⟩ :=
  C7_malformed_dropped (fun _ => none) "plainly not json" rfl

/-- A JSON value as used in the outbound WebSocket envelope: a string, a
numeric timestamp (`time.time()`), `null`, or an embedded object. -/
inductive JVal where
  | str (s : String)
  | numSecs (n : Nat)
  | null
  | obj (raw : String)
deriving DecidableEq, Repr

/-- The message dictionary built by `forward_response`
(`optimized_response_bridge.py` lines 96-102), as an ordered field list:
`payload` defaults to the whole popped object, `timestamp` to the current
time, `client_id` to `None` (JSON null). -/
def forward_message (rd : ResponseData) (now : Nat) : List (String × JVal) :=
  [("type", JVal.str "ai_response"),
   ("payload", match rd.payload with
               | some p => JVal.obj p
               | none => JVal.obj rd.raw),
   ("timestamp", match rd.timestamp with
                 | some t => JVal.str t
                 | none => JVal.numSecs now),
   ("source", JVal.str "response_bridge"),
   ("client_id", match rd.client_id with
                 | some c => JVal.str c
                 | none => JVal.null)]

/-- Claim C8 (confirmed): every outbound WebSocket message has exactly the
fields `type`, `payload`, `timestamp`, `source`, `client_id`, in that
order, with `type = "ai_response"` and `source = "response_bridge"`. -/
theorem C8_envelope_shape (rd : ResponseData) (now : Nat) :
    ∃ p t c, forward_message rd now
      = [("type", JVal.str "ai_response"), ("payload", p), ("timestamp", t),
         ("source", JVal.str "response_bridge"), ("client_id", c)] :=
  ⟨_, _, _, rfl⟩

end AVAI
